import Mathlib

/-!
Shallow embedding of the walkthrough core of `src/lib/TutorialProvider.tsx`
(react-ui-walkthrough): the step data model, the navigation state machine
(`handleNext` / `handleClose`, the initial `useState` value), the pure
placement computation inside `updateTooltipPosition`, and the render logic
that selects the tooltip's controls.  Pixel quantities are modelled as
rationals (JS numbers on these operations: +, -, /2, min, max are exact).
-/

namespace Walkthrough

/-- Mirrors `enum VerticalPosition { Top, Bottom, Middle }`. -/
inductive VerticalPosition where
  | top
  | bottom
  | middle
deriving DecidableEq, Repr

/-- Mirrors `enum HorizontalPosition { Left, Right, Center }`. -/
inductive HorizontalPosition where
  | left
  | right
  | center
deriving DecidableEq, Repr

/-- Mirrors `interface Step`.  Optional TS fields become `Option`s
(`none` = the field is omitted).  The opaque `tooltipStyle : CSSProperties`
is represented by an abstract label, unused by the geometry. -/
structure Step where
  elementId : String
  text : String
  verticalPosition : Option VerticalPosition := none
  horizontalPosition : Option HorizontalPosition := none
  verticalOffset : Option ℚ := none
  horizontalOffset : Option ℚ := none
  tooltipStyle : Option String := none
deriving DecidableEq, Repr

/-- The geometry the DOM reports for a target element:
`getBoundingClientRect().top/left` and `offsetWidth` / `offsetHeight`. -/
structure TargetBox where
  rectTop : ℚ
  rectLeft : ℚ
  offsetWidth : ℚ
  offsetHeight : ℚ
deriving DecidableEq, Repr

/-- `window.innerWidth` / `window.innerHeight`. -/
structure Viewport where
  innerWidth : ℚ
  innerHeight : ℚ
deriving DecidableEq, Repr

/-- The document scroll offsets (`pageYOffset` / `pageXOffset`). -/
structure Scroll where
  scrollTop : ℚ
  scrollLeft : ℚ
deriving DecidableEq, Repr

/-- The absolute coordinates written into the tooltip style. -/
structure Placement where
  top : ℚ
  left : ℚ
deriving DecidableEq, Repr

/-- `const tooltipWidth = 300` in `updateTooltipPosition`. -/
def tooltipWidth : ℚ := 300

/-- `const centerOffset = tooltipWidth / 2`. -/
def centerOffset : ℚ := tooltipWidth / 2

/-- The pre-clamp `top`: `targetRect.top + scrollTop`, the vertical-position
switch (whose `default` arm coincides with `'middle'`), then `+= step.verticalOffset ?? 0`. -/
def preTop (step : Step) (box : TargetBox) (scroll : Scroll) : ℚ :=
  let base := box.rectTop + scroll.scrollTop
  let adjusted :=
    match step.verticalPosition with
    | some .top => base - box.offsetHeight
    | some .bottom => base + box.offsetHeight
    | some .middle => base + box.offsetHeight / 2
    | none => base + box.offsetHeight / 2
  adjusted + step.verticalOffset.getD 0

/-- The pre-clamp `left`: `targetRect.left + scrollLeft`, the horizontal-position
switch (whose `default` arm coincides with `'center'`), `+= step.horizontalOffset ?? 0`,
and then the centering correction `left -= centerOffset`, applied only under
`step.horizontalPosition === 'center'` — i.e. only when the field is present
and equal to `center`, not when it is omitted. -/
def preLeft (step : Step) (box : TargetBox) (scroll : Scroll) : ℚ :=
  let base := box.rectLeft + scroll.scrollLeft
  let adjusted :=
    match step.horizontalPosition with
    | some .left => base - box.offsetWidth
    | some .right => base + box.offsetWidth
    | some .center => base + box.offsetWidth / 2
    | none => base + box.offsetWidth / 2
  let withOffset := adjusted + step.horizontalOffset.getD 0
  if step.horizontalPosition = some .center then withOffset - centerOffset
  else withOffset

/-- The full placement computation of `updateTooltipPosition` for a located
target: the pre-clamp coordinates followed by the edge clamps
`left = Math.max(0, Math.min(left, window.innerWidth - tooltipWidth))` and
`top = Math.max(0, Math.min(top, window.innerHeight))`. -/
def computePlacement (step : Step) (box : TargetBox) (vp : Viewport)
    (scroll : Scroll) : Placement :=
  { top := max 0 (min (preTop step box scroll) vp.innerHeight),
    left := max 0 (min (preLeft step box scroll) (vp.innerWidth - tooltipWidth)) }

/-- The initial `useState(showTooltip ? 0 : -1)` value of `activeStep`. -/
def initialActiveStep (showTooltip : Bool) : Int :=
  if showTooltip then 0 else -1

/-- `handleClose`: `setActiveStep(-1)` (the resize-listener removal is an
external side effect, not part of the state). -/
def handleClose (_activeStep : Int) : Int := -1

/-- `handleNext`: `if (activeStep === steps.length - 1) { handleClose(); return; }`
and otherwise `setActiveStep(prev => prev + 1)`.  `steps.length - 1` is JS
number arithmetic, so it is `-1` for an empty list. -/
def handleNext (steps : List Step) (activeStep : Int) : Int :=
  if activeStep = (steps.length : Int) - 1 then handleClose activeStep
  else activeStep + 1

/-- The spec's invariant `activeIndex ∈ [-1, length)`. -/
def activeIndexInvariant (steps : List Step) (activeStep : Int) : Prop :=
  -1 ≤ activeStep ∧ activeStep < (steps.length : Int)

instance (steps : List Step) (a : Int) : Decidable (activeIndexInvariant steps a) :=
  inferInstanceAs (Decidable (_ ∧ _))

/-- The mutable state `updateTooltipPosition` reads and writes: `activeStep`
and the `top`/`left` part of `curTooltipStyle` (`none` until a placement has
been written). -/
structure TooltipState where
  activeStep : Int
  placement : Option Placement
deriving DecidableEq, Repr

/-- `updateTooltipPosition`, with `document.getElementById` abstracted as a
`lookup` capability.  Control flow of the source, in order:
`if (activeStep < 0) return;` — then `const step = steps[activeStep]` followed
by the unguarded `step.elementId`, which throws a `TypeError` when the index
is out of bounds (modelled as `Except.error`); then `if (!target) return;`
retains the previous state; otherwise the computed placement is merged into
the current style. -/
def updateTooltipPosition (steps : List Step) (lookup : String → Option TargetBox)
    (vp : Viewport) (scroll : Scroll) (st : TooltipState) : Except Unit TooltipState :=
  if st.activeStep < 0 then .ok st
  else
    match steps.get? st.activeStep.toNat with
    | none => .error ()
    | some step =>
      match lookup step.elementId with
      | none => .ok st
      | some box => .ok { st with placement := some (computePlacement step box vp scroll) }

/-- The props handed to the `Tooltip` component: its text, the always-present
`onClose` handler, and `onNext`, which is the `handleNext` callback or `null`
(`some ()` marks the presence of the callback). -/
structure TooltipProps where
  text : String
  hasOnClose : Bool
  onNext : Option Unit
deriving DecidableEq, Repr

/-- What `TutorialProvider` returns: just the children when inactive, or the
tooltip (plus overlay and children) when a step is active. -/
inductive Render where
  | childrenOnly
  | withTooltip (props : TooltipProps)
deriving DecidableEq, Repr

/-- The render logic of `TutorialProvider`: `if (activeStep < 0) return children;`
then `<Tooltip text={steps[activeStep].text} ... onClose={handleClose}
onNext={activeStep !== steps.length - 1 ? handleNext : null} />`.  The
unguarded `steps[activeStep].text` throws when the index is out of bounds. -/
def providerRender (steps : List Step) (activeStep : Int) : Except Unit Render :=
  if activeStep < 0 then .ok .childrenOnly
  else
    match steps.get? activeStep.toNat with
    | none => .error ()
    | some step =>
      .ok (.withTooltip
        { text := step.text,
          hasOnClose := true,
          onNext := if activeStep ≠ (steps.length : Int) - 1 then some () else none })

/-- The buttons the `Tooltip` component renders: a `Close` button always, and
a `Next` button exactly under `{onNext && <button onClick={onNext} ...>}`. -/
def tooltipButtons (props : TooltipProps) : List String :=
  "Close" :: (match props.onNext with
    | some _ => ["Next"]
    | none => [])

/-- A concrete step used in witnesses and counterexamples. -/
def stepA : Step := { elementId := "a1", text := "first" }

/-- A second concrete step. -/
def stepB : Step := { elementId := "a2", text := "second" }

/-- A concrete two-step sequence. -/
def exSteps2 : List Step := [stepA, stepB]

/-- The target box of the spec's anchor-symmetry scenario:
`{top:100, left:50, width:40, height:20}`. -/
def c6Box : TargetBox := { rectTop := 100, rectLeft := 50, offsetWidth := 40, offsetHeight := 20 }

/-- The `800x600` viewport of the spec's anchor-symmetry scenario. -/
def c6Vp : Viewport := { innerWidth := 800, innerHeight := 600 }

/-- Zero document scroll. -/
def zeroScroll : Scroll := { scrollTop := 0, scrollLeft := 0 }

end Walkthrough

namespace Walkthrough

/-- C1: from `Active(i)` with `i < length - 1`, `handleNext` yields
`Active(i+1)`; from `Active(length-1)` it yields `Inactive` (`-1`). -/
theorem c1_advance_from_active (steps : List Step) (i : Nat) (h : i < steps.length) :
    (i < steps.length - 1 → handleNext steps i = (i : Int) + 1) ∧
    (i = steps.length - 1 → handleNext steps i = -1) := by
  unfold handleNext handleClose
  constructor
  · intro hlt
    rw [if_neg (by omega)]
  · intro heq
    rw [if_pos (by omega)]

/-- Witness for C1 on the concrete two-step sequence: advancing from step 0
reaches step 1, advancing from the final step 1 deactivates. -/
theorem c1_advance_from_active_witness :
    handleNext exSteps2 0 = 1 ∧ handleNext exSteps2 1 = -1 :=
  ⟨(c1_advance_from_active exSteps2 0 (by decide)).1 (by decide),
   (c1_advance_from_active exSteps2 1 (by decide)).2 (by decide)⟩

/-- C2 counterexample: `handleNext` called while `Inactive` (`activeStep = -1`)
on a nonempty step list is not a no-op — it moves the state to `0`. -/
theorem c2_counterexample : handleNext [stepA] (-1) ≠ -1 := by decide

/-- C2 (amended): while `Inactive`, `handleClose` is a no-op, and `handleNext`
is a no-op exactly when the step list is empty — on a nonempty list it
transitions to `Active(0)`; neither throws. -/
theorem c2_inactive_behaviour (steps : List Step) :
    handleClose (-1) = -1 ∧
    (steps.length = 0 → handleNext steps (-1) = -1) ∧
    (steps.length ≠ 0 → handleNext steps (-1) = 0) := by
  unfold handleNext handleClose
  refine ⟨rfl, ?_, ?_⟩
  · intro h0
    rw [if_pos (by omega)]
  · intro hne
    rw [if_neg (by omega)]
    norm_num

/-- Witness for C2 (amended): close from inactive stays inactive; advance from
inactive is a no-op on the empty list but activates step 0 on `[stepA]`. -/
theorem c2_inactive_behaviour_witness :
    handleClose (-1) = -1 ∧
    handleNext ([] : List Step) (-1) = -1 ∧
    handleNext [stepA] (-1) = 0 :=
  ⟨(c2_inactive_behaviour []).1,
   (c2_inactive_behaviour []).2.1 (by decide),
   (c2_inactive_behaviour [stepA]).2.2 (by decide)⟩

/-- C3 counterexample: at construction with an empty step list and
`showTooltip = true`, `activeStep = 0` violates `activeIndex ∈ [-1, length)`. -/
theorem c3_counterexample :
    ¬ activeIndexInvariant ([] : List Step) (initialActiveStep true) := by
  decide

/-- C3 (amended): the invariant `activeIndex ∈ [-1, length)` holds at
construction whenever the step list is nonempty or the auto-show flag is off,
and it is preserved by every `handleNext` and `handleClose` call. -/
theorem c3_invariant_amended (steps : List Step) (showTooltip : Bool) (a : Int) :
    ((steps ≠ [] ∨ showTooltip = false) →
      activeIndexInvariant steps (initialActiveStep showTooltip)) ∧
    (activeIndexInvariant steps a →
      activeIndexInvariant steps (handleClose a) ∧
      activeIndexInvariant steps (handleNext steps a)) := by
  unfold activeIndexInvariant initialActiveStep handleNext handleClose
  constructor
  · rintro (hne | hoff)
    · have hpos : 0 < steps.length := List.length_pos.mpr hne
      split <;> omega
    · rw [hoff]
      norm_num
      omega
  · rintro ⟨h1, h2⟩
    refine ⟨⟨by omega, by omega⟩, ?_⟩
    split <;> omega

/-- Witness for C3 (amended): the invariant holds for the two-step sequence at
auto-show construction and is preserved by an advance and a close from step 0. -/
theorem c3_invariant_amended_witness :
    activeIndexInvariant exSteps2 (initialActiveStep true) ∧
    activeIndexInvariant exSteps2 (handleClose 0) ∧
    activeIndexInvariant exSteps2 (handleNext exSteps2 0) :=
  ⟨(c3_invariant_amended exSteps2 true 0).1 (Or.inl (by decide)),
   ((c3_invariant_amended exSteps2 true 0).2 (by decide)).1,
   ((c3_invariant_amended exSteps2 true 0).2 (by decide)).2⟩

/-- C4 counterexample: with a `100`-wide viewport (narrower than the assumed
tooltip width `300`), the computed `left` is `0`, which is not ≤
`viewportWidth - assumedWidth = -200` — the claimed bound fails exactly in the
`viewportWidth < assumedWidth` case the claim includes. -/
theorem c4_counterexample :
    (computePlacement stepA c6Box { innerWidth := 100, innerHeight := 600 } zeroScroll).left = 0 ∧
    ¬ (computePlacement stepA c6Box { innerWidth := 100, innerHeight := 600 }
        zeroScroll).left ≤ (100 : ℚ) - tooltipWidth := by
  constructor
  · simp [computePlacement, preLeft, tooltipWidth, centerOffset, stepA, zeroScroll,
      c6Box, min_def, max_def]
    norm_num
  · simp [computePlacement, preLeft, tooltipWidth, centerOffset, stepA, zeroScroll,
      c6Box, min_def, max_def]
    norm_num

/-- C4 (amended): for a viewport of nonnegative height, the computed placement
satisfies `0 ≤ top ≤ viewportHeight` and
`0 ≤ left ≤ max 0 (viewportWidth - assumedWidth)`; the upper bound on `left`
is `viewportWidth - assumedWidth` only when that quantity is nonnegative. -/
theorem c4_placement_bounds (step : Step) (box : TargetBox) (vp : Viewport)
    (scroll : Scroll) (hH : 0 ≤ vp.innerHeight) :
    0 ≤ (computePlacement step box vp scroll).top ∧
    (computePlacement step box vp scroll).top ≤ vp.innerHeight ∧
    0 ≤ (computePlacement step box vp scroll).left ∧
    (computePlacement step box vp scroll).left ≤ max 0 (vp.innerWidth - tooltipWidth) := by
  unfold computePlacement
  refine ⟨le_max_left _ _, ?_, le_max_left _ _, ?_⟩
  · exact max_le hH (min_le_right _ _)
  · exact max_le (le_max_left _ _) (le_trans (min_le_right _ _) (le_max_right _ _))

/-- Witness for C4 (amended) on the spec's concrete scenario. -/
theorem c4_placement_bounds_witness :
    (0 : ℚ) ≤ c6Vp.innerHeight ∧
    0 ≤ (computePlacement stepA c6Box c6Vp zeroScroll).top ∧
    (computePlacement stepA c6Box c6Vp zeroScroll).top ≤ c6Vp.innerHeight ∧
    0 ≤ (computePlacement stepA c6Box c6Vp zeroScroll).left ∧
    (computePlacement stepA c6Box c6Vp zeroScroll).left ≤
      max 0 (c6Vp.innerWidth - tooltipWidth) :=
  ⟨by decide, c4_placement_bounds stepA c6Box c6Vp zeroScroll (by decide)⟩

/-- C5 counterexample: a step with `horizontalPosition` omitted does not get
the `-150` centering correction that an explicit `Center` gets, so the two
placements differ (target at `left = 400`: `left = 420` versus `left = 270`). -/
theorem c5_counterexample :
    computePlacement { stepA with horizontalPosition := none }
        { rectTop := 100, rectLeft := 400, offsetWidth := 40, offsetHeight := 20 }
        c6Vp zeroScroll ≠
      computePlacement { stepA with horizontalPosition := some .center }
        { rectTop := 100, rectLeft := 400, offsetWidth := 40, offsetHeight := 20 }
        c6Vp zeroScroll := by
  simp [computePlacement, preTop, preLeft, tooltipWidth, centerOffset, stepA, c6Vp,
    zeroScroll, min_def, max_def, Placement.mk.injEq]
  norm_num

/-- C5 (amended): an omitted `verticalPosition` yields exactly the placement of
an explicit `Middle`; an omitted `horizontalPosition` takes the same
half-target-width adjustment as `Center` but skips the half-assumed-width
centering correction, so its pre-clamp `left` exceeds the explicit `Center`
one by exactly `centerOffset = 150`. -/
theorem c5_defaults_amended (step : Step) (box : TargetBox) (vp : Viewport)
    (scroll : Scroll) :
    computePlacement { step with verticalPosition := none } box vp scroll =
      computePlacement { step with verticalPosition := some .middle } box vp scroll ∧
    preLeft { step with horizontalPosition := none } box scroll =
      preLeft { step with horizontalPosition := some .center } box scroll + centerOffset := by
  constructor
  · rfl
  · simp [preLeft, centerOffset]

/-- C6: the spec's anchor-symmetry values on target box
`{top:100, left:50, width:40, height:20}`, viewport `800x600`, zero scroll:
`Top → top = 80`, `Bottom → 120`, `Middle → 110`; `Left → left = 10`,
`Right → 90`, `Center → 70 - 150` clamped to `0`. -/
theorem c6_anchor_values :
    (computePlacement { stepA with verticalPosition := some .top } c6Box c6Vp zeroScroll).top
        = 80 ∧
    (computePlacement { stepA with verticalPosition := some .bottom } c6Box c6Vp zeroScroll).top
        = 120 ∧
    (computePlacement { stepA with verticalPosition := some .middle } c6Box c6Vp zeroScroll).top
        = 110 ∧
    (computePlacement { stepA with horizontalPosition := some .left } c6Box c6Vp zeroScroll).left
        = 10 ∧
    (computePlacement { stepA with horizontalPosition := some .right } c6Box c6Vp zeroScroll).left
        = 90 ∧
    (computePlacement { stepA with horizontalPosition := some .center } c6Box c6Vp zeroScroll).left
        = 0 := by
  refine ⟨?_, ?_, ?_, ?_, ?_, ?_⟩ <;>
    (simp [computePlacement, preTop, preLeft, tooltipWidth, centerOffset, stepA,
      c6Box, c6Vp, zeroScroll, min_def, max_def]
     norm_num)

/-- C7: offsets are additive and independent of the anchor choice — setting
`verticalOffset = d` shifts the pre-clamp `top` by exactly `d` relative to
`verticalOffset = 0`, and `horizontalOffset = e` shifts the pre-clamp `left`
by exactly `e`, for every step (hence every anchor combination). -/
theorem c7_offsets_additive (step : Step) (box : TargetBox) (scroll : Scroll) (d e : ℚ) :
    preTop { step with verticalOffset := some d } box scroll =
      preTop { step with verticalOffset := some 0 } box scroll + d ∧
    preLeft { step with horizontalOffset := some e } box scroll =
      preLeft { step with horizontalOffset := some 0 } box scroll + e := by
  obtain ⟨eid, txt, v, hp, vo, ho, ts⟩ := step
  constructor
  · rcases v with _ | (_ | _ | _) <;> simp [preTop]
  · rcases hp with _ | (_ | _ | _) <;> (simp [preLeft]; try ring)

/-- C8: when the current step's target element cannot be located (`lookup`
returns `none`), `updateTooltipPosition` returns the state unchanged —
same `activeStep`, same retained placement — and does not throw. -/
theorem c8_missing_element (steps : List Step) (lookup : String → Option TargetBox)
    (vp : Viewport) (scroll : Scroll) (st : TooltipState)
    (hIn : st.activeStep.toNat < steps.length)
    (hMiss : ∀ step, steps.get? st.activeStep.toNat = some step →
      lookup step.elementId = none) :
    updateTooltipPosition steps lookup vp scroll st = .ok st := by
  unfold updateTooltipPosition
  split
  · rfl
  · cases hg : steps.get? st.activeStep.toNat with
    | none =>
      exact absurd (List.get?_eq_none.mp hg) (by omega)
    | some step =>
      simp [hg, hMiss step hg]

/-- Witness for C8: a one-step walkthrough at step 0 whose lookup finds
nothing leaves the state `⟨0, none⟩` untouched. -/
theorem c8_missing_element_witness :
    updateTooltipPosition [stepA] (fun _ => none) c6Vp zeroScroll
      { activeStep := 0, placement := none } =
      .ok { activeStep := 0, placement := none } :=
  c8_missing_element [stepA] (fun _ => none) c6Vp zeroScroll
    { activeStep := 0, placement := none } (by decide) (fun _ _ => rfl)

/-- C9 (the code bug): with an empty step list and `showTooltip = true`, the
initial `activeStep` is `0`, so both `steps[activeStep].elementId` in
`updateTooltipPosition` and `steps[activeStep].text` in the render path index
out of bounds and throw (`Except.error`), contradicting the claim that every
indexing of the steps array is in bounds. -/
theorem c9_empty_steps_out_of_bounds :
    initialActiveStep true = 0 ∧
    updateTooltipPosition ([] : List Step) (fun _ => none) c6Vp zeroScroll
      { activeStep := initialActiveStep true, placement := none } = .error () ∧
    providerRender ([] : List Step) (initialActiveStep true) = .error () :=
  ⟨rfl, rfl, rfl⟩

/-- C10: on every in-bounds active step, the provider renders a tooltip whose
`onNext` is the advance callback exactly when the step is not the last one;
the `Tooltip` renders a `Next` button exactly when `onNext` is present, always
renders `Close`, and on the last step offers only `Close`. -/
theorem c10_next_button (steps : List Step) (a : Nat) (h : a < steps.length) :
    ∃ props, providerRender steps a = .ok (.withTooltip props) ∧
      props.onNext = (if (a : Int) ≠ (steps.length : Int) - 1 then some () else none) ∧
      ("Next" ∈ tooltipButtons props ↔ (a : Int) ≠ (steps.length : Int) - 1) ∧
      "Close" ∈ tooltipButtons props ∧
      ((a : Int) = (steps.length : Int) - 1 → tooltipButtons props = ["Close"]) := by
  have hnn : ¬ ((a : Int) < 0) := by omega
  have hget : steps.get? a = some (steps.get ⟨a, h⟩) := List.get?_eq_get h
  refine ⟨{ text := (steps.get ⟨a, h⟩).text, hasOnClose := true,
            onNext := if (a : Int) ≠ (steps.length : Int) - 1 then some () else none },
          ?_, rfl, ?_, ?_, ?_⟩
  · unfold providerRender
    rw [if_neg hnn]
    simp only [Int.toNat_natCast, hget]
  · by_cases hc : (a : Int) = (steps.length : Int) - 1 <;>
      simp [tooltipButtons, hc]
  · simp [tooltipButtons]
  · intro hc
    simp [tooltipButtons, hc]

/-- Witness for C10 at the final step of the concrete two-step sequence:
the tooltip there has no `onNext` and offers only the `Close` button. -/
theorem c10_next_button_witness :
    ∃ props, providerRender exSteps2 1 = .ok (.withTooltip props) ∧
      props.onNext = (if (1 : Int) ≠ (exSteps2.length : Int) - 1 then some () else none) ∧
      ("Next" ∈ tooltipButtons props ↔ (1 : Int) ≠ (exSteps2.length : Int) - 1) ∧
      "Close" ∈ tooltipButtons props ∧
      ((1 : Int) = (exSteps2.length : Int) - 1 → tooltipButtons props = ["Close"]) :=
  c10_next_button exSteps2 1 (by decide)

end Walkthrough
